import Mathlib

/-!
Shallow embedding of `src/src/src/helper/FileCopyManager.cpp` (the
asynchronous file-operation coordinator of vmos-edge).

Modelling conventions:
- The coordinator's mutable members (`m_isCopying`, `m_status`, `m_copiedSize`,
  `m_totalSize`, `m_tempDirToCleanup`, `m_deletingFilePath`) form `ManagerState`.
- Every Qt signal emission, every `TempCleanup` invocation and every background
  worker dispatch (`QThread` + `FileCopyWorker` start) is recorded, in program
  order, as an `Act` in the trace returned alongside the new state.
- `qint64` arithmetic is modelled exactly over `Int`; C++ `/` on `qint64`
  truncates toward zero, which is `Int.tdiv`.  The final `static_cast<int>` in
  `progressPercent` is the identity on every value the function is proved or
  evaluated at here, so no 32-bit wrap is applied.
- Filesystem and storage queries (`QDir::exists`, `QDir::mkpath`,
  `QDir::entryList`, `QDir::removeRecursively`, `QStorageInfo`, ...) are
  external effects; each is supplied as an explicit oracle argument, and each
  attempted mutation is recorded in the returned trace.
- `qDebug()` logging is not modelled: it affects no coordinator state and no
  emission.
-/

/-- The mutable member fields of `FileCopyManager`. -/
structure ManagerState where
  m_isCopying : Bool
  m_status : String
  m_copiedSize : Int
  m_totalSize : Int
  m_tempDirToCleanup : String
  m_deletingFilePath : String
deriving DecidableEq

/-- The Qt signals of `FileCopyManager` that the modelled operations emit. -/
inductive Signal where
  | statusChanged
  | isCopyingChanged
  | progressChanged
  | totalSizeChanged
  | copySucceeded
  | copyFailed (message : String)
  | deleteSucceeded (path : String)
  | deleteFailed (message : String)
  | validationProgress (label : String) (value : Int)
deriving DecidableEq

/-- A background worker unit started on a fresh `QThread`, identified by the
worker entry point its `QThread::started` connection invokes. -/
inductive Dispatch where
  | doCopy (source destination : String)
  | doDelete (filePath : String)
  | doValidateImage (imagePath : String)
deriving DecidableEq

/-- One observable step of a coordinator operation, in program order. -/
inductive Act where
  | sig (s : Signal)
  | tempCleanup (dir : String)
  | dispatch (d : Dispatch)
deriving DecidableEq

/-- Result of a public `start*` member: new state, trace, boolean return. -/
structure OpResult where
  state : ManagerState
  actions : List Act
  ret : Bool
deriving DecidableEq

/-- Result of a slot consuming a worker event: new state and trace. -/
structure HandlerResult where
  state : ManagerState
  actions : List Act
deriving DecidableEq

/-- The background units dispatched within a trace. -/
def dispatched (acts : List Act) : List Dispatch :=
  acts.filterMap fun a =>
    match a with
    | Act.dispatch d => some d
    | _ => none

/-- Modelled from the spec: the freshly constructed coordinator (the class
header with its member initializers is not under `src/`); per the spec's
ProgressSnapshot the coordinator starts idle, with empty status, zero
copied/total bytes and no recorded temp-directory or delete path. -/
def initialState : ManagerState :=
  { m_isCopying := false
    m_status := ""
    m_copiedSize := 0
    m_totalSize := 0
    m_tempDirToCleanup := ""
    m_deletingFilePath := "" }

/-- `FileCopyManager::progressPercent` (lines 21-27): 0 when
`m_totalSize <= 0`, otherwise `(m_copiedSize * 100) / m_totalSize` with C++
truncated division. -/
def progressPercent (s : ManagerState) : Int :=
  if s.m_totalSize ≤ 0 then 0
  else Int.tdiv (s.m_copiedSize * 100) s.m_totalSize

/-- `FileCopyManager::startCopy` (lines 29-84).  `destDirExists` is the oracle
for `destDir.exists()` on the destination's parent directory, `mkpathOk` for
`destDir.mkpath(".")` (only consulted when the directory does not exist). -/
def startCopy (s : ManagerState) (source destination tempDirToCleanup : String)
    (destDirExists mkpathOk : Bool) : OpResult :=
  if s.m_isCopying then
    { state := { s with m_status := "Already copying..." }
      actions := [Act.sig Signal.statusChanged]
      ret := false }
  else if destDirExists = false ∧ mkpathOk = false then
    { state := { s with m_status := "Failed to create destination directory." }
      actions := [Act.sig Signal.statusChanged,
                  Act.sig (Signal.copyFailed "Failed to create destination directory.")]
      ret := false }
  else
    { state := { s with m_tempDirToCleanup := tempDirToCleanup
                        m_isCopying := true
                        m_status := "Starting copy..."
                        m_copiedSize := 0
                        m_totalSize := 0 }
      actions := [Act.sig Signal.isCopyingChanged,
                  Act.sig Signal.statusChanged,
                  Act.sig Signal.progressChanged,
                  Act.sig Signal.totalSizeChanged,
                  Act.dispatch (Dispatch.doCopy source destination)]
      ret := true }

/-- `FileCopyManager::startDelete` (lines 86-114): records the path, sets the
status, emits `statusChanged` and unconditionally dispatches `doDelete`. -/
def startDelete (s : ManagerState) (filePath : String) : OpResult :=
  { state := { s with m_deletingFilePath := filePath
                      m_status := "Starting delete..." }
    actions := [Act.sig Signal.statusChanged,
                Act.dispatch (Dispatch.doDelete filePath)]
    ret := true }

/-- `FileCopyManager::onDeleteFinished` (lines 116-126). -/
def onDeleteFinished (s : ManagerState) (success : Bool) (message : String) :
    HandlerResult :=
  { state := { s with m_status := message }
    actions := [Act.sig Signal.statusChanged] ++
      (if success then [Act.sig (Signal.deleteSucceeded s.m_deletingFilePath)]
       else [Act.sig (Signal.deleteFailed message)]) }

/-- `FileCopyManager::onCopyProgress` (lines 128-136): `totalSizeChanged` is
emitted only when the incoming total differs from the stored one;
`progressChanged` is emitted unconditionally. -/
def onCopyProgress (s : ManagerState) (copiedSize totalSize : Int) :
    HandlerResult :=
  if s.m_totalSize ≠ totalSize then
    { state := { s with m_totalSize := totalSize, m_copiedSize := copiedSize }
      actions := [Act.sig Signal.totalSizeChanged, Act.sig Signal.progressChanged] }
  else
    { state := { s with m_copiedSize := copiedSize }
      actions := [Act.sig Signal.progressChanged] }

/-- `FileCopyManager::onCopyFinished` (lines 138-157): clears the busy flag,
sets the status, emits the state-change signals, runs `cleanupTempDirectory`
on a non-empty recorded handle and clears the handle (cleanup returns no
outcome to this handler), then emits `copySucceeded` or `copyFailed`. -/
def onCopyFinished (s : ManagerState) (success : Bool) (message : String) :
    HandlerResult :=
  let s1 : ManagerState := { s with m_isCopying := false, m_status := message }
  let preActs : List Act :=
    [Act.sig Signal.isCopyingChanged, Act.sig Signal.statusChanged]
  let cleanupActs : List Act :=
    if s1.m_tempDirToCleanup = "" then [] else [Act.tempCleanup s1.m_tempDirToCleanup]
  let s2 : ManagerState :=
    if s1.m_tempDirToCleanup = "" then s1 else { s1 with m_tempDirToCleanup := "" }
  { state := s2
    actions := preActs ++ cleanupActs ++
      [if success then Act.sig Signal.copySucceeded
       else Act.sig (Signal.copyFailed message)] }

/-- `FileCopyManager::startImageValidation` (lines 209-231): no busy-flag
gate; sets the status, emits `statusChanged` and the initial
`validationProgress` event, then dispatches the validation unit and returns
true. -/
def startImageValidation (s : ManagerState) (imagePath : String) : OpResult :=
  { state := { s with m_status := "Starting image validation..." }
    actions := [Act.sig Signal.statusChanged,
                Act.sig (Signal.validationProgress "开始校验" 0),
                Act.dispatch (Dispatch.doValidateImage imagePath)]
    ret := true }

/-- Coordinator states reachable, on the control context, from the freshly
constructed coordinator by the modelled operations and worker events. -/
inductive Reachable : ManagerState → Prop where
  | init : Reachable initialState
  | copyStep (s : ManagerState) (src dst tmp : String) (de mk : Bool) :
      Reachable s → Reachable (startCopy s src dst tmp de mk).state
  | copyProgressStep (s : ManagerState) (c t : Int) :
      Reachable s → Reachable (onCopyProgress s c t).state
  | copyFinishStep (s : ManagerState) (ok : Bool) (msg : String) :
      Reachable s → Reachable (onCopyFinished s ok msg).state
  | deleteStep (s : ManagerState) (p : String) :
      Reachable s → Reachable (startDelete s p).state
  | deleteFinishStep (s : ManagerState) (ok : Bool) (msg : String) :
      Reachable s → Reachable (onDeleteFinished s ok msg).state
  | validationStep (s : ManagerState) (p : String) :
      Reachable s → Reachable (startImageValidation s p).state

/-!
`FileCopyManager::cleanupTempDirectory` (lines 319-361).

The directory listing observed at entry is an oracle snapshot (`DirSnapshot`:
`QDir::exists`, `entryList(Files)`, `entryList(Dirs | NoDotAndDotDot)`), and
the function returns the list of filesystem removal attempts it performs, in
program order.  The outcomes of `QFile::remove` on individual files, of
`removeRecursively` on individual subdirectories, and of the final
`QDir::rmdir` fallback are consulted by the source only for `qDebug` logging
and never alter control flow, so the trace takes no oracle for them; only the
outcome of the final `dir.removeRecursively()` (`removeRecursivelyOk` applied
to the directory itself) decides whether the fallback `rmdir` is attempted.
The function returns `void` in the source: no failure is reported.
-/

/-- Oracle snapshot of the directory `cleanupTempDirectory` is invoked on. -/
structure DirSnapshot where
  dirExists : Bool
  files : List String
  subdirs : List String

/-- A filesystem removal attempt performed by `cleanupTempDirectory`.
`rmdirFromParent d` is the fallback `parentDir.rmdir(dirName)` with
`parentDir = QDir(d).cdUp()` and `dirName = QFileInfo(d).fileName()`, i.e.
removal of `d` as a plain entry relative to its parent. -/
inductive FsAction where
  | removeFile (path : String)
  | removeRecursively (path : String)
  | rmdirFromParent (dir : String)
deriving DecidableEq

/-- `dir.absoluteFilePath(entry)` for an entry listed directly inside `dir`. -/
def absoluteFilePath (dir entry : String) : String :=
  dir ++ "/" ++ entry

/-- `FileCopyManager::cleanupTempDirectory` as its trace of removal attempts,
mirroring the source's two loops and final removal with fallback. -/
def cleanupTempDirectory (tempDir : String) (snap : DirSnapshot)
    (removeRecursivelyOk : String → Bool) : List FsAction :=
  if snap.dirExists = false then []
  else
    let afterFiles : List FsAction :=
      snap.files.foldl
        (fun acc file => acc ++ [FsAction.removeFile (absoluteFilePath tempDir file)]) []
    let afterDirs : List FsAction :=
      snap.subdirs.foldl
        (fun acc d => acc ++ [FsAction.removeRecursively (absoluteFilePath tempDir d)])
        afterFiles
    let afterMain : List FsAction := afterDirs ++ [FsAction.removeRecursively tempDir]
    if removeRecursivelyOk tempDir then afterMain
    else afterMain ++ [FsAction.rmdirFromParent tempDir]

/-!
`FileCopyManager::getAvailableSpace` (lines 168-207).

The platform is a compile-time choice (`Q_OS_WIN`); both branches are
modelled.  Qt path/storage queries are oracles in `StorageEnv`.
-/

/-- Compile-time platform of the `Q_OS_WIN` preprocessor branch. -/
inductive OsKind where
  | windows
  | posixLike
deriving DecidableEq

/-- Oracles for the Qt path and storage queries used by `getAvailableSpace`:
`absoluteFilePathOf` is `QFileInfo(p).absoluteFilePath()`, `systemRootPath`
is `QDir::rootPath()`, `volumeRootPathOf` is `QStorageInfo(p).rootPath()`,
and `isValid`/`isReady`/`bytesAvailable` are the `QStorageInfo` queries on a
root path. -/
structure StorageEnv where
  absoluteFilePathOf : String → String
  systemRootPath : String
  volumeRootPathOf : String → String
  isValid : String → Bool
  isReady : String → Bool
  bytesAvailable : String → Int

/-- `QDir::fromNativeSeparators`: backslashes become forward slashes. -/
def fromNativeSeparators (p : String) : String :=
  String.map (fun c => if c = '\\' then '/' else c) p

/-- The character at index `i` of `p`, as `QString::at(i)` on ASCII data. -/
def charAt (p : String) (i : Nat) : Option Char :=
  p.toList.get? i

/-- The `Q_OS_WIN` branch: truncate to the drive root `X:/` when the path (or
else its absolute form) has a drive letter, otherwise `QDir::rootPath()`. -/
def winRootPath (env : StorageEnv) (path : String) : String :=
  let p := fromNativeSeparators path
  if 2 ≤ p.length ∧ charAt p 1 = some ':' then
    String.take p 2 ++ "/"
  else
    let abs := fromNativeSeparators (env.absoluteFilePathOf p)
    if 2 ≤ abs.length ∧ charAt abs 1 = some ':' then
      String.take abs 2 ++ "/"
    else env.systemRootPath

/-- The non-Windows branch: volume root of the path (of `QDir::rootPath()`
when the path is empty), falling back to `QDir::rootPath()` when the volume
root comes back empty. -/
def posixRootPath (env : StorageEnv) (path : String) : String :=
  let r := env.volumeRootPathOf (if path.isEmpty then env.systemRootPath else path)
  if r.isEmpty then env.systemRootPath else r

/-- The query root `rootPath` computed by `getAvailableSpace`. -/
def resolveRootPath : OsKind → StorageEnv → String → String
  | OsKind.windows, env, path => winRootPath env path
  | OsKind.posixLike, env, path => posixRootPath env path

/-- `FileCopyManager::getAvailableSpace`: 0 when the resolved root is invalid
or not ready, otherwise `QStorageInfo::bytesAvailable` on it. -/
def getAvailableSpace (os : OsKind) (env : StorageEnv) (path : String) : Int :=
  let rootPath := resolveRootPath os env path
  if (env.isValid rootPath && env.isReady rootPath) = false then 0
  else env.bytesAvailable rootPath

/-! ## Theorems -/

/-- A concrete non-busy coordinator state used as a test vector. -/
def idleState : ManagerState :=
  { m_isCopying := false
    m_status := "Ready"
    m_copiedSize := 3
    m_totalSize := 7
    m_tempDirToCleanup := "/tmp/old"
    m_deletingFilePath := "/x" }

/-- A concrete busy coordinator state used as a test vector. -/
def busyState : ManagerState :=
  { m_isCopying := true
    m_status := "Copying file..."
    m_copiedSize := 10
    m_totalSize := 20
    m_tempDirToCleanup := "/tmp/stage"
    m_deletingFilePath := "" }

/-- C1: consuming the copy terminal result `(success, message)` clears the
busy flag and sets the status to `message` regardless of `success`; when a
non-empty temp-directory handle is recorded, `TempCleanup` is invoked exactly
once on that path and the handle is cleared afterward (cleanup reports no
outcome to the handler); and only after all of that is `copySucceeded`
(on success) or `copyFailed message` (on failure) emitted, as the last
action of the trace. -/
theorem onCopyFinished_cleanup_then_notify (s : ManagerState) (success : Bool)
    (message : String) :
    (onCopyFinished s success message).state.m_isCopying = false ∧
    (onCopyFinished s success message).state.m_status = message ∧
    (onCopyFinished s success message).state.m_tempDirToCleanup = "" ∧
    (onCopyFinished s success message).actions =
      [Act.sig Signal.isCopyingChanged, Act.sig Signal.statusChanged] ++
        (if s.m_tempDirToCleanup = "" then []
         else [Act.tempCleanup s.m_tempDirToCleanup]) ++
        [if success then Act.sig Signal.copySucceeded
         else Act.sig (Signal.copyFailed message)] ∧
    (onCopyFinished s success message).actions.count
        (Act.tempCleanup s.m_tempDirToCleanup) =
      (if s.m_tempDirToCleanup = "" then 0 else 1) := by
  by_cases h : s.m_tempDirToCleanup = "" <;>
    cases success <;>
      simp [onCopyFinished, h, List.count_cons, List.count_append]

/-- C2: `startCopy` invoked while the busy flag is set returns false, sets the
status to the already-copying message, changes nothing else in the
coordinator state, and dispatches no background unit. -/
theorem startCopy_busy_rejects (s : ManagerState) (src dst tmp : String)
    (de mkOk : Bool) (hb : s.m_isCopying = true) :
    (startCopy s src dst tmp de mkOk).ret = false ∧
    (startCopy s src dst tmp de mkOk).state =
      { s with m_status := "Already copying..." } ∧
    (startCopy s src dst tmp de mkOk).actions = [Act.sig Signal.statusChanged] ∧
    dispatched (startCopy s src dst tmp de mkOk).actions = [] := by
  simp [startCopy, hb, dispatched]

/-- Witness for C2: a concrete busy state rejects a concrete request. -/
theorem startCopy_busy_rejects_witness :
    (startCopy busyState "a.img" "b.img" "/tmp/t" true true).ret = false ∧
    (startCopy busyState "a.img" "b.img" "/tmp/t" true true).state =
      { busyState with m_status := "Already copying..." } ∧
    (startCopy busyState "a.img" "b.img" "/tmp/t" true true).actions =
      [Act.sig Signal.statusChanged] ∧
    dispatched (startCopy busyState "a.img" "b.img" "/tmp/t" true true).actions = [] :=
  startCopy_busy_rejects busyState "a.img" "b.img" "/tmp/t" true true rfl

/-- C3: `startCopy` on a non-busy coordinator: when the destination parent
directory neither exists nor can be created, it sets the failure status,
emits `copyFailed` exactly once, returns false, dispatches nothing and leaves
the busy flag false; otherwise it records the temp handle, sets busy true,
resets the byte counters to 0, dispatches exactly the copy unit and returns
true. -/
theorem startCopy_notBusy_dispatch (s : ManagerState) (src dst tmp : String)
    (de mkOk : Bool) (hb : s.m_isCopying = false) :
    ((de = false ∧ mkOk = false) →
      (startCopy s src dst tmp de mkOk).ret = false ∧
      (startCopy s src dst tmp de mkOk).state =
        { s with m_status := "Failed to create destination directory." } ∧
      (startCopy s src dst tmp de mkOk).state.m_isCopying = false ∧
      (startCopy s src dst tmp de mkOk).actions =
        [Act.sig Signal.statusChanged,
         Act.sig (Signal.copyFailed "Failed to create destination directory.")] ∧
      (startCopy s src dst tmp de mkOk).actions.count
        (Act.sig (Signal.copyFailed "Failed to create destination directory.")) = 1 ∧
      dispatched (startCopy s src dst tmp de mkOk).actions = []) ∧
    ((de = true ∨ mkOk = true) →
      (startCopy s src dst tmp de mkOk).ret = true ∧
      (startCopy s src dst tmp de mkOk).state =
        { s with m_tempDirToCleanup := tmp
                 m_isCopying := true
                 m_status := "Starting copy..."
                 m_copiedSize := 0
                 m_totalSize := 0 } ∧
      (startCopy s src dst tmp de mkOk).actions =
        [Act.sig Signal.isCopyingChanged,
         Act.sig Signal.statusChanged,
         Act.sig Signal.progressChanged,
         Act.sig Signal.totalSizeChanged,
         Act.dispatch (Dispatch.doCopy src dst)] ∧
      dispatched (startCopy s src dst tmp de mkOk).actions =
        [Dispatch.doCopy src dst]) := by
  constructor
  · rintro ⟨hde, hmk⟩
    subst hde; subst hmk
    simp [startCopy, hb, dispatched, List.count_cons]
  · intro h
    have hcond : ¬ (de = false ∧ mkOk = false) := by
      rcases h with h | h <;> subst h <;> simp
    simp [startCopy, hb, hcond, dispatched]

/-- Witness for C3: both branches evaluated at concrete inputs. -/
theorem startCopy_notBusy_dispatch_witness :
    ((startCopy idleState "a" "/dst/b" "/tmp/s" false false).ret = false ∧
      dispatched (startCopy idleState "a" "/dst/b" "/tmp/s" false false).actions = []) ∧
    ((startCopy idleState "a" "/dst/b" "/tmp/s" true true).ret = true ∧
      dispatched (startCopy idleState "a" "/dst/b" "/tmp/s" true true).actions =
        [Dispatch.doCopy "a" "/dst/b"]) :=
  ⟨⟨((startCopy_notBusy_dispatch idleState "a" "/dst/b" "/tmp/s" false false rfl).1
        ⟨rfl, rfl⟩).1,
    ((startCopy_notBusy_dispatch idleState "a" "/dst/b" "/tmp/s" false false rfl).1
        ⟨rfl, rfl⟩).2.2.2.2.2⟩,
   ⟨((startCopy_notBusy_dispatch idleState "a" "/dst/b" "/tmp/s" true true rfl).2
        (Or.inl rfl)).1,
    ((startCopy_notBusy_dispatch idleState "a" "/dst/b" "/tmp/s" true true rfl).2
        (Or.inl rfl)).2.2.2⟩⟩

/-- Accumulating one element per list entry with `foldl` is appending the
mapped list (the loop shape of `cleanupTempDirectory`). -/
theorem foldl_push_eq_append_map {α β : Type} (g : α → β) :
    ∀ (l : List α) (init : List β),
      List.foldl (fun acc x => acc ++ [g x]) init l = init ++ l.map g
  | [], init => by simp
  | x :: xs, init => by
      rw [List.foldl_cons, foldl_push_eq_append_map g xs]
      simp

/-- C4: `cleanupTempDirectory` on a missing directory performs no filesystem
action at all; otherwise its attempt trace is exactly: one removal per regular
file directly inside the directory (all attempted, outcomes notwithstanding),
then one recursive removal per direct subdirectory from the
dot-pseudo-entry-free listing, then the recursive removal of the directory
itself, followed — exactly when that final removal fails — by a single
fallback removal of the directory as a plain entry relative to its parent;
the function reports no failure to its caller (it returns only the trace). -/
theorem cleanupTempDirectory_steps (tempDir : String) (snap : DirSnapshot)
    (rrOk : String → Bool) :
    cleanupTempDirectory tempDir snap rrOk =
      (if snap.dirExists = false then ([] : List FsAction)
       else
        (snap.files.map fun f => FsAction.removeFile (absoluteFilePath tempDir f)) ++
        (snap.subdirs.map fun d =>
          FsAction.removeRecursively (absoluteFilePath tempDir d)) ++
        [FsAction.removeRecursively tempDir] ++
        (if rrOk tempDir = true then []
         else [FsAction.rmdirFromParent tempDir])) ∧
    (cleanupTempDirectory tempDir snap rrOk).count (FsAction.rmdirFromParent tempDir) =
      (if snap.dirExists = true ∧ rrOk tempDir = false then 1 else 0) := by
  have heq : cleanupTempDirectory tempDir snap rrOk =
      (if snap.dirExists = false then ([] : List FsAction)
       else
        (snap.files.map fun f => FsAction.removeFile (absoluteFilePath tempDir f)) ++
        (snap.subdirs.map fun d =>
          FsAction.removeRecursively (absoluteFilePath tempDir d)) ++
        [FsAction.removeRecursively tempDir] ++
        (if rrOk tempDir = true then []
         else [FsAction.rmdirFromParent tempDir])) := by
    by_cases hde : snap.dirExists = false
    · simp [cleanupTempDirectory, hde]
    · by_cases hrr : rrOk tempDir = true <;>
        simp [cleanupTempDirectory, hde, hrr, foldl_push_eq_append_map,
          List.append_assoc]
  refine ⟨heq, ?_⟩
  rw [heq]
  by_cases hde : snap.dirExists = false
  · simp [hde]
  · have hde1 : snap.dirExists = true := by
      cases hb : snap.dirExists
      · exact absurd hb hde
      · rfl
    by_cases hrr : rrOk tempDir = true
    · simp [hde1, hrr, List.count_append, List.count_eq_zero, List.mem_map]
    · have hrr0 : rrOk tempDir = false := by
        cases hb : rrOk tempDir
        · rfl
        · exact absurd hb hrr
      have h1 : List.count (FsAction.rmdirFromParent tempDir)
          (snap.files.map fun f => FsAction.removeFile (absoluteFilePath tempDir f)) = 0 :=
        List.count_eq_zero.2 (by simp [List.mem_map])
      have h2 : List.count (FsAction.rmdirFromParent tempDir)
          (snap.subdirs.map fun d =>
            FsAction.removeRecursively (absoluteFilePath tempDir d)) = 0 :=
        List.count_eq_zero.2 (by simp [List.mem_map])
      simp [hde1, hrr0, List.count_append, h1, h2]

/-- The state reached from the fresh coordinator by a successful `startCopy`
followed by a progress event reporting more bytes copied than the total. -/
def overfullState : ManagerState :=
  (onCopyProgress
    (startCopy initialState "src.img" "/dst/d.img" "" true true).state
    200 100).state

/-- C5 counterexample: `overfullState` is reachable, yet `progressPercent`
returns 200 there — outside [0,100] — because the handler stores whatever
byte counts the worker reports and the percentage is not clamped. -/
theorem progressPercent_range_counterexample :
    Reachable overfullState ∧ progressPercent overfullState = 200 :=
  ⟨Reachable.copyProgressStep _ 200 100
      (Reachable.copyStep _ "src.img" "/dst/d.img" "" true true Reachable.init),
   by decide⟩

/-- C5 (amended): `progressPercent` lies in [0,100] for every state whose
stored counters satisfy 0 ≤ copiedBytes ≤ totalBytes; for counters outside
that region (which the progress handler accepts unchecked) the result can
leave the range. -/
theorem progressPercent_range (s : ManagerState)
    (h0 : 0 ≤ s.m_copiedSize) (h1 : s.m_copiedSize ≤ s.m_totalSize) :
    0 ≤ progressPercent s ∧ progressPercent s ≤ 100 := by
  unfold progressPercent
  by_cases ht : s.m_totalSize ≤ 0
  · simp [ht]
  · rw [if_neg ht]
    have htpos : 0 < s.m_totalSize := lt_of_not_le ht
    have hnum : 0 ≤ s.m_copiedSize * 100 := by positivity
    rw [Int.tdiv_eq_ediv hnum (le_of_lt htpos)]
    refine ⟨Int.ediv_nonneg hnum (le_of_lt htpos), ?_⟩
    have hmul : s.m_copiedSize * 100 ≤ s.m_totalSize * 100 :=
      mul_le_mul_of_nonneg_right h1 (by norm_num)
    calc s.m_copiedSize * 100 / s.m_totalSize
        ≤ s.m_totalSize * 100 / s.m_totalSize := Int.ediv_le_ediv htpos hmul
      _ = 100 := by
          rw [mul_comm]
          exact Int.mul_ediv_cancel 100 (ne_of_gt htpos)

/-- Witness for the amended C5 at a concrete state with 3 of 7 bytes copied. -/
theorem progressPercent_range_witness :
    0 ≤ progressPercent idleState ∧ progressPercent idleState ≤ 100 :=
  progressPercent_range idleState (by decide) (by decide)

/-- A concrete state at 5 of 7 bytes copied, for the monotonicity witness. -/
def halfState : ManagerState :=
  { m_isCopying := true
    m_status := "Copying file..."
    m_copiedSize := 5
    m_totalSize := 7
    m_tempDirToCleanup := ""
    m_deletingFilePath := "" }

/-- A concrete state whose stored total is 0, for the zero-total witness. -/
def zeroTotalState : ManagerState :=
  { m_isCopying := true
    m_status := "Starting copy..."
    m_copiedSize := 5
    m_totalSize := 0
    m_tempDirToCleanup := ""
    m_deletingFilePath := "" }

/-- C6: `progressPercent` returns 0 whenever the stored total is ≤ 0; for
0 ≤ copiedBytes ≤ totalBytes with totalBytes > 0 it returns
floor(copiedBytes*100/totalBytes); and at a fixed stored total it is
monotonically non-decreasing as the stored copied counter increases from a
non-negative value. -/
theorem progressPercent_formula_monotone :
    (∀ s : ManagerState, s.m_totalSize ≤ 0 → progressPercent s = 0) ∧
    (∀ s : ManagerState, 0 ≤ s.m_copiedSize → s.m_copiedSize ≤ s.m_totalSize →
      0 < s.m_totalSize →
      progressPercent s = Int.fdiv (s.m_copiedSize * 100) s.m_totalSize) ∧
    (∀ s t : ManagerState, 0 ≤ s.m_copiedSize →
      s.m_copiedSize ≤ t.m_copiedSize → t.m_totalSize = s.m_totalSize →
      progressPercent s ≤ progressPercent t) := by
  refine ⟨?_, ?_, ?_⟩
  · intro s hs
    simp [progressPercent, hs]
  · intro s h0 _ htpos
    have hnum : 0 ≤ s.m_copiedSize * 100 := by positivity
    rw [progressPercent, if_neg (not_le.2 htpos),
      Int.tdiv_eq_ediv hnum (le_of_lt htpos),
      Int.fdiv_eq_ediv _ (le_of_lt htpos)]
  · intro s t h0 hle htot
    by_cases hz : s.m_totalSize ≤ 0
    · simp [progressPercent, hz, htot]
    · have htpos : 0 < s.m_totalSize := lt_of_not_le hz
      have h0t : 0 ≤ t.m_copiedSize := le_trans h0 hle
      have hnum : 0 ≤ s.m_copiedSize * 100 := by positivity
      have hnumt : 0 ≤ t.m_copiedSize * 100 := by positivity
      rw [progressPercent, progressPercent, htot, if_neg (not_le.2 htpos),
        if_neg (not_le.2 htpos), Int.tdiv_eq_ediv hnum (le_of_lt htpos),
        Int.tdiv_eq_ediv hnumt (le_of_lt htpos)]
      exact Int.ediv_le_ediv htpos (mul_le_mul_of_nonneg_right hle (by norm_num))

/-- Witness for C6: all three parts evaluated at concrete states
(total 0; 3 of 7 copied; 3 of 7 versus 5 of 7). -/
theorem progressPercent_formula_monotone_witness :
    progressPercent zeroTotalState = 0 ∧
    progressPercent idleState =
      Int.fdiv (idleState.m_copiedSize * 100) idleState.m_totalSize ∧
    progressPercent idleState ≤ progressPercent halfState :=
  ⟨progressPercent_formula_monotone.1 zeroTotalState (by decide),
   progressPercent_formula_monotone.2.1 idleState (by decide) (by decide) (by decide),
   progressPercent_formula_monotone.2.2 idleState halfState (by decide) (by decide)
     (by decide)⟩

/-- C7 counterexample: at a concrete state and path, no validation progress
event labelled "starting validation" is emitted by `startImageValidation`;
the label the source emits is the Chinese string "开始校验". -/
theorem startImageValidation_label_counterexample :
    Act.sig (Signal.validationProgress "starting validation" 0) ∉
      (startImageValidation idleState "disk.img").actions := by
  decide

/-- C7 (amended): every call to `startImageValidation` dispatches (it is not
gated by the busy flag) and returns true, and synchronously — before the
background unit is dispatched — emits the initial validation progress event
with label "开始校验" (Chinese for "starting validation") and value 0. -/
theorem startImageValidation_dispatch (s : ManagerState) (imagePath : String) :
    (startImageValidation s imagePath).ret = true ∧
    (startImageValidation s imagePath).state =
      { s with m_status := "Starting image validation..." } ∧
    (startImageValidation s imagePath).actions =
      [Act.sig Signal.statusChanged,
       Act.sig (Signal.validationProgress "开始校验" 0),
       Act.dispatch (Dispatch.doValidateImage imagePath)] := by
  exact ⟨rfl, rfl, rfl⟩

/-- C8: `startDelete` always dispatches the delete unit and returns true
regardless of the busy flag; neither `startDelete` nor `onDeleteFinished`
reads or writes the busy flag, the byte counters or the temp-directory handle
(overwriting those four fields beforehand changes nothing but those same four
fields in the outcome); a successful terminal result carries the path
recorded at dispatch, a failed one carries the worker's message. -/
theorem delete_frame_properties :
    (∀ (s : ManagerState) (p : String),
      (startDelete s p).ret = true ∧
      (startDelete s p).actions =
        [Act.sig Signal.statusChanged, Act.dispatch (Dispatch.doDelete p)] ∧
      dispatched (startDelete s p).actions = [Dispatch.doDelete p]) ∧
    (∀ (s : ManagerState) (p : String) (b : Bool) (c t : Int) (h : String),
      startDelete { s with m_isCopying := b, m_copiedSize := c, m_totalSize := t,
                           m_tempDirToCleanup := h } p =
        { state :=
            { (startDelete s p).state with
                m_isCopying := b
                m_copiedSize := c
                m_totalSize := t
                m_tempDirToCleanup := h }
          actions := (startDelete s p).actions
          ret := (startDelete s p).ret }) ∧
    (∀ (s : ManagerState) (ok : Bool) (msg : String) (b : Bool) (c t : Int)
        (h : String),
      onDeleteFinished { s with m_isCopying := b, m_copiedSize := c,
                                m_totalSize := t, m_tempDirToCleanup := h } ok msg =
        { state :=
            { (onDeleteFinished s ok msg).state with
                m_isCopying := b
                m_copiedSize := c
                m_totalSize := t
                m_tempDirToCleanup := h }
          actions := (onDeleteFinished s ok msg).actions }) ∧
    (∀ (s : ManagerState) (p msg : String),
      (onDeleteFinished (startDelete s p).state true msg).actions =
        [Act.sig Signal.statusChanged, Act.sig (Signal.deleteSucceeded p)]) ∧
    (∀ (s : ManagerState) (msg : String),
      (onDeleteFinished s false msg).actions =
        [Act.sig Signal.statusChanged, Act.sig (Signal.deleteFailed msg)]) := by
  refine ⟨fun s p => ⟨rfl, rfl, rfl⟩, fun s p b c t h => rfl,
    fun s ok msg b c t h => ?_, fun s p msg => rfl, fun s msg => rfl⟩
  cases ok <;> rfl

/-- C10: the recorded delete path is a single shared field overwritten by
every `startDelete`: after `startDelete p1` then `startDelete p2`, the
success notification for the next consumed terminal result carries `p2`, and
(for distinct paths) not `p1`. -/
theorem deleteSucceeded_latest_path (s : ManagerState) (p1 p2 msg : String)
    (hne : p1 ≠ p2) :
    (onDeleteFinished (startDelete (startDelete s p1).state p2).state
        true msg).actions =
      [Act.sig Signal.statusChanged, Act.sig (Signal.deleteSucceeded p2)] ∧
    Act.sig (Signal.deleteSucceeded p1) ∉
      (onDeleteFinished (startDelete (startDelete s p1).state p2).state
        true msg).actions := by
  refine ⟨rfl, ?_⟩
  simp [startDelete, onDeleteFinished, hne]

/-- Witness for C10: two concrete overlapping deletes; the success
notification names the second path, not the first. -/
theorem deleteSucceeded_latest_path_witness :
    (onDeleteFinished (startDelete (startDelete idleState "/a.img").state
        "/b.img").state true "Deleted").actions =
      [Act.sig Signal.statusChanged, Act.sig (Signal.deleteSucceeded "/b.img")] ∧
    Act.sig (Signal.deleteSucceeded "/a.img") ∉
      (onDeleteFinished (startDelete (startDelete idleState "/a.img").state
        "/b.img").state true "Deleted").actions :=
  deleteSucceeded_latest_path idleState "/a.img" "/b.img" "Deleted" (by decide)

/-- C9: under the `QStorageInfo` contract that a valid and ready root reports
a non-negative available-byte count, `getAvailableSpace` returns a
non-negative integer on both platform branches for every environment and
input path (empty or unresolvable included); it returns exactly 0 when the
resolved root is invalid or not ready, and the root's available bytes
otherwise. -/
theorem getAvailableSpace_nonneg (os : OsKind) (env : StorageEnv) (path : String)
    (hq : ∀ r : String, env.isValid r = true → env.isReady r = true →
      0 ≤ env.bytesAvailable r) :
    0 ≤ getAvailableSpace os env path ∧
    ((env.isValid (resolveRootPath os env path) &&
        env.isReady (resolveRootPath os env path)) = false →
      getAvailableSpace os env path = 0) ∧
    ((env.isValid (resolveRootPath os env path) &&
        env.isReady (resolveRootPath os env path)) = true →
      getAvailableSpace os env path =
        env.bytesAvailable (resolveRootPath os env path)) := by
  unfold getAvailableSpace
  by_cases hc : (env.isValid (resolveRootPath os env path) &&
      env.isReady (resolveRootPath os env path)) = false
  · simp [hc]
  · rw [if_neg hc]
    have hct : (env.isValid (resolveRootPath os env path) &&
        env.isReady (resolveRootPath os env path)) = true := by
      simpa using hc
    rw [Bool.and_eq_true] at hct
    exact ⟨hq _ hct.1 hct.2, fun hfalse => absurd hfalse hc, fun _ => rfl⟩

/-- A concrete storage environment: one volume rooted at /data, valid, ready,
reporting 123456 available bytes. -/
def testEnv : StorageEnv :=
  { absoluteFilePathOf := fun p => "/root/" ++ p
    systemRootPath := "/"
    volumeRootPathOf := fun _ => "/data"
    isValid := fun r => r == "/data"
    isReady := fun _ => true
    bytesAvailable := fun _ => 123456 }

/-- Witness for C9: the non-Windows branch on the concrete environment. -/
theorem getAvailableSpace_nonneg_witness :
    0 ≤ getAvailableSpace OsKind.posixLike testEnv "/data/file.img" ∧
    getAvailableSpace OsKind.posixLike testEnv "/data/file.img" = 123456 :=
  ⟨(getAvailableSpace_nonneg OsKind.posixLike testEnv "/data/file.img"
      (fun _ _ _ => by simp [testEnv])).1,
   (getAvailableSpace_nonneg OsKind.posixLike testEnv "/data/file.img"
      (fun _ _ _ => by simp [testEnv])).2.2 (by decide)⟩
